import Mathlib

/-!
Verification of the `intelliflow-core` library: a shallow embedding of
`src/intelliflow_core/helpers.py`, `src/intelliflow_core/contracts.py` and
`src/intelliflow_core/governance_ui.py`, followed by theorems settling the
specification claims.

Modelling conventions:
  * Python strings of `truncate_text` are lists of characters; `max_length`
    is an integer (`Int`), since Python slicing accepts negative bounds.
  * Python floats are modelled as exact rationals (`ℚ`); `round(x, 6)` is
    modelled as rounding `x * 10^6` to the nearest integer.  The tie-breaking
    rule is immaterial to every claim proved below.
  * `datetime` values are modelled as an abstract instant, an integer.
  * Pydantic construction from keyword arguments / a field map is modelled
    as a function from an association list of field name to value, returning
    `Except String` (error on the first violated field; pydantic's
    aggregation of several errors into one `ValidationError` is not needed
    by any claim).
-/

/-- A JSON-compatible value as passed to / produced by pydantic models:
`null`, booleans, integers, floats (exact rationals here), strings,
`datetime` instants, and string-keyed objects (for the open-ended
`Dict[str, Any]` fields `details` and `metadata`). -/
inductive JValue where
  | null : JValue
  | bool : Bool → JValue
  | int : ℤ → JValue
  | num : ℚ → JValue
  | str : String → JValue
  | time : ℤ → JValue
  | obj : List (String × JValue) → JValue

/-- The `AuditEventType` enum of `contracts.py` (15 members). -/
inductive AuditEventType where
  | user_query | user_feedback
  | ai_response | ai_escalation
  | system_error | system_startup | system_shutdown
  | policy_check | policy_violation | human_override
  | data_access | data_export
  | auth_login | auth_logout | auth_failure
deriving DecidableEq

/-- The string tag of each `AuditEventType` member (its Python `.value`). -/
def AuditEventType.toTag : AuditEventType → String
  | .user_query => "user_query"
  | .user_feedback => "user_feedback"
  | .ai_response => "ai_response"
  | .ai_escalation => "ai_escalation"
  | .system_error => "system_error"
  | .system_startup => "system_startup"
  | .system_shutdown => "system_shutdown"
  | .policy_check => "policy_check"
  | .policy_violation => "policy_violation"
  | .human_override => "human_override"
  | .data_access => "data_access"
  | .data_export => "data_export"
  | .auth_login => "auth_login"
  | .auth_logout => "auth_logout"
  | .auth_failure => "auth_failure"

/-- Parse a string tag back into the enum (pydantic's validation of an
`AuditEventType` field from its string value; unknown tags are rejected). -/
def AuditEventType.ofTag (s : String) : Option AuditEventType :=
  if s = "user_query" then some .user_query
  else if s = "user_feedback" then some .user_feedback
  else if s = "ai_response" then some .ai_response
  else if s = "ai_escalation" then some .ai_escalation
  else if s = "system_error" then some .system_error
  else if s = "system_startup" then some .system_startup
  else if s = "system_shutdown" then some .system_shutdown
  else if s = "policy_check" then some .policy_check
  else if s = "policy_violation" then some .policy_violation
  else if s = "human_override" then some .human_override
  else if s = "data_access" then some .data_access
  else if s = "data_export" then some .data_export
  else if s = "auth_login" then some .auth_login
  else if s = "auth_logout" then some .auth_logout
  else if s = "auth_failure" then some .auth_failure
  else none

/-- `AuditEventSchema` of `contracts.py`: required `event_id`, `event_type`,
`component`, `action`; defaulted `timestamp` (creation time) and `success`
(`True`); optional `user_id`, `session_id`, `details`, `metadata`. -/
structure AuditEventSchema where
  event_id : String
  event_type : AuditEventType
  timestamp : ℤ
  component : String
  action : String
  user_id : Option String
  session_id : Option String
  success : Bool
  details : Option (List (String × JValue))
  metadata : Option (List (String × JValue))

/-- `CostTrackingSchema` of `contracts.py`: required `event_id`, `model`,
`input_tokens`, `output_tokens`, `total_tokens` (each `ge=0`) and `cost_usd`
(`ge=0.0`); defaulted `timestamp`; optional `component`, `session_id`. -/
structure CostTrackingSchema where
  event_id : String
  timestamp : ℤ
  model : String
  input_tokens : ℤ
  output_tokens : ℤ
  total_tokens : ℤ
  cost_usd : ℚ
  component : Option String
  session_id : Option String
deriving DecidableEq

/-- `GovernanceLogEntry` of `contracts.py`: required `component`, `action`;
defaulted `timestamp`, `success`; optional `details`. -/
structure GovernanceLogEntry where
  timestamp : ℤ
  component : String
  action : String
  success : Bool
  details : Option String
deriving DecidableEq

/-! ## Helper layer (`helpers.py`) -/

/-- Python's slice `xs[:k]` for an integer bound `k`: a non-negative `k`
takes the first `k` elements (clamped to the length), a negative `k` drops
the last `-k` elements (clamped to the empty list). -/
def pySlice (xs : List Char) (k : ℤ) : List Char :=
  if 0 ≤ k then xs.take k.toNat else xs.take (xs.length - (-k).toNat)

/-- `truncate_text` of `helpers.py` (text as a list of characters,
`max_length` as an integer):
empty text returns empty; text within `max_length` is returned unchanged;
for `max_length ≤ 3` the first `max_length` characters (Python slice) are
returned with no ellipsis; otherwise the first `max_length - 3` characters
followed by `"..."`. -/
def truncate_text (text : List Char) (max_length : ℤ) : List Char :=
  if text = [] then []
  else if (text.length : ℤ) ≤ max_length then text
  else if max_length ≤ 3 then pySlice text max_length
  else pySlice text (max_length - 3) ++ ['.', '.', '.']

/-- `MODEL_COSTS` of `helpers.py`: cost per 1K tokens (USD) as
`(input rate, output rate)`; `none` models absence from the dict. -/
def MODEL_COSTS (model : String) : Option (ℚ × ℚ) :=
  if model = "gpt-4o-mini" then some (0.00015, 0.0006)
  else if model = "gpt-4o" then some (0.005, 0.015)
  else if model = "gpt-4-turbo" then some (0.01, 0.03)
  else if model = "gpt-4" then some (0.03, 0.06)
  else if model = "gpt-3.5-turbo" then some (0.0005, 0.0015)
  else none

/-- Python's `round(q, 6)` over the exact-rational model: round
`q * 10^6` to the nearest integer and scale back.  (Tie-breaking differs
from Python's round-half-even, but no claim exercises a tie.) -/
def round6 (q : ℚ) : ℚ := (((q * 1000000 + 1/2).floor : ℤ) : ℚ) / 1000000

/-- `calculate_cost` of `helpers.py`: unknown models cost `0.0`; known
models cost `round(input/1000 * input_rate + output/1000 * output_rate, 6)`. -/
def calculate_cost (input_tokens output_tokens : ℤ) (model : String) : ℚ :=
  match MODEL_COSTS model with
  | none => 0
  | some costs =>
      round6 ((input_tokens : ℚ) / 1000 * costs.1 + (output_tokens : ℚ) / 1000 * costs.2)

/-! ## Governance log adapter (`governance_ui.py`) -/

/-- `init_governance_state` of `governance_ui.py`, combined with the read of
the `governance_logs` session-state slot: get-or-create the list (an absent
slot becomes the empty list, an existing one is untouched). -/
def init_governance_state : Option (List GovernanceLogEntry) → List GovernanceLogEntry
  | none => []
  | some logs => logs

/-- `add_governance_log` of `governance_ui.py`: ensure the state exists,
build a `GovernanceLogEntry` from the arguments and the current time,
append it at the end of the list, and return it together with the updated
list (the new content of the session-state slot). -/
def add_governance_log (st : Option (List GovernanceLogEntry))
    (component action : String) (success : Bool) (details : Option String)
    (now : ℤ) : GovernanceLogEntry × List GovernanceLogEntry :=
  let logs := init_governance_state st
  let entry : GovernanceLogEntry :=
    { timestamp := now, component := component, action := action,
      success := success, details := details }
  (entry, logs ++ [entry])

/-- The display order of `render_governance_panel` of `governance_ui.py`:
entries are iterated with `reversed(logs)`, i.e. newest first. -/
def snapshot (logs : List GovernanceLogEntry) : List GovernanceLogEntry :=
  logs.reverse

/-! ## Pydantic construction from a field map (`contracts.py`)

Each reader models pydantic's handling of one field of the input map:
missing required fields and wrong shapes are `ValidationError`s, fields
with defaults fall back to the default when absent. -/

/-- Read a required `str` field. -/
def readStr (m : List (String × JValue)) (k : String) : Except String String :=
  match m.lookup k with
  | some (.str s) => .ok s
  | some _ => .error (k ++ ": wrong_type")
  | none => .error (k ++ ": missing_required")

/-- Read a required `AuditEventType` field from its string tag. -/
def readEventType (m : List (String × JValue)) (k : String) :
    Except String AuditEventType :=
  match m.lookup k with
  | some (.str s) =>
      match AuditEventType.ofTag s with
      | some t => .ok t
      | none => .error (k ++ ": wrong_type")
  | some _ => .error (k ++ ": wrong_type")
  | none => .error (k ++ ": missing_required")

/-- Read a `datetime` field defaulting to the current time (the
`default_factory=datetime.utcnow` fields). -/
def readTimeD (now : ℤ) (m : List (String × JValue)) (k : String) :
    Except String ℤ :=
  match m.lookup k with
  | some (.time t) => .ok t
  | some _ => .error (k ++ ": wrong_type")
  | none => .ok now

/-- Read a `bool` field with a default. -/
def readBoolD (d : Bool) (m : List (String × JValue)) (k : String) :
    Except String Bool :=
  match m.lookup k with
  | some (.bool b) => .ok b
  | some _ => .error (k ++ ": wrong_type")
  | none => .ok d

/-- Read an `Optional[str]` field defaulting to `None`. -/
def readOptStr (m : List (String × JValue)) (k : String) :
    Except String (Option String) :=
  match m.lookup k with
  | some (.str s) => .ok (some s)
  | some .null => .ok none
  | some _ => .error (k ++ ": wrong_type")
  | none => .ok none

/-- Read an `Optional[Dict[str, Any]]` field defaulting to `None`. -/
def readOptObj (m : List (String × JValue)) (k : String) :
    Except String (Option (List (String × JValue))) :=
  match m.lookup k with
  | some (.obj d) => .ok (some d)
  | some .null => .ok none
  | some _ => .error (k ++ ": wrong_type")
  | none => .ok none

/-- Read a required `int` field constrained by `ge=0`. -/
def readIntGe (m : List (String × JValue)) (k : String) : Except String ℤ :=
  match m.lookup k with
  | some (.int i) => if i < 0 then .error (k ++ ": out_of_range") else .ok i
  | some _ => .error (k ++ ": wrong_type")
  | none => .error (k ++ ": missing_required")

/-- Read a required `float` field constrained by `ge=0.0` (an integer value
is accepted and coerced, as pydantic does for `float` fields). -/
def readNumGe (m : List (String × JValue)) (k : String) : Except String ℚ :=
  match m.lookup k with
  | some (.num q) => if q < 0 then .error (k ++ ": out_of_range") else .ok q
  | some (.int i) =>
      if (i : ℚ) < 0 then .error (k ++ ": out_of_range") else .ok (i : ℚ)
  | some _ => .error (k ++ ": wrong_type")
  | none => .error (k ++ ": missing_required")

/-- Construction of `AuditEventSchema` from a field map. -/
def AuditEventSchema.construct (now : ℤ) (m : List (String × JValue)) :
    Except String AuditEventSchema :=
  Except.bind (readStr m "event_id") fun event_id =>
  Except.bind (readEventType m "event_type") fun event_type =>
  Except.bind (readTimeD now m "timestamp") fun timestamp =>
  Except.bind (readStr m "component") fun component =>
  Except.bind (readStr m "action") fun action =>
  Except.bind (readOptStr m "user_id") fun user_id =>
  Except.bind (readOptStr m "session_id") fun session_id =>
  Except.bind (readBoolD true m "success") fun success =>
  Except.bind (readOptObj m "details") fun details =>
  Except.bind (readOptObj m "metadata") fun metadata =>
  Except.ok ⟨event_id, event_type, timestamp, component, action,
             user_id, session_id, success, details, metadata⟩

/-- Construction of `CostTrackingSchema` from a field map. -/
def CostTrackingSchema.construct (now : ℤ) (m : List (String × JValue)) :
    Except String CostTrackingSchema :=
  Except.bind (readStr m "event_id") fun event_id =>
  Except.bind (readTimeD now m "timestamp") fun timestamp =>
  Except.bind (readStr m "model") fun model =>
  Except.bind (readIntGe m "input_tokens") fun input_tokens =>
  Except.bind (readIntGe m "output_tokens") fun output_tokens =>
  Except.bind (readIntGe m "total_tokens") fun total_tokens =>
  Except.bind (readNumGe m "cost_usd") fun cost_usd =>
  Except.bind (readOptStr m "component") fun component =>
  Except.bind (readOptStr m "session_id") fun session_id =>
  Except.ok ⟨event_id, timestamp, model, input_tokens, output_tokens,
             total_tokens, cost_usd, component, session_id⟩

/-- Construction of `GovernanceLogEntry` from a field map. -/
def GovernanceLogEntry.construct (now : ℤ) (m : List (String × JValue)) :
    Except String GovernanceLogEntry :=
  Except.bind (readTimeD now m "timestamp") fun timestamp =>
  Except.bind (readStr m "component") fun component =>
  Except.bind (readStr m "action") fun action =>
  Except.bind (readBoolD true m "success") fun success =>
  Except.bind (readOptStr m "details") fun details =>
  Except.ok ⟨timestamp, component, action, success, details⟩

/-- Serialize an optional string the way `model_dump` does (`None` → null). -/
def jOptStr : Option String → JValue
  | none => .null
  | some s => .str s

/-- Serialize an optional dict the way `model_dump` does (`None` → null). -/
def jOptObj : Option (List (String × JValue)) → JValue
  | none => .null
  | some d => .obj d

/-- `model_dump` of `AuditEventSchema`: every field under its name; the
`event_type` enum serializes to its string tag (`use_enum_values=True`). -/
def AuditEventSchema.serialize (r : AuditEventSchema) : List (String × JValue) :=
  [("event_id", .str r.event_id),
   ("event_type", .str r.event_type.toTag),
   ("timestamp", .time r.timestamp),
   ("component", .str r.component),
   ("action", .str r.action),
   ("user_id", jOptStr r.user_id),
   ("session_id", jOptStr r.session_id),
   ("success", .bool r.success),
   ("details", jOptObj r.details),
   ("metadata", jOptObj r.metadata)]

/-- `model_dump` of `CostTrackingSchema`. -/
def CostTrackingSchema.serialize (r : CostTrackingSchema) : List (String × JValue) :=
  [("event_id", .str r.event_id),
   ("timestamp", .time r.timestamp),
   ("model", .str r.model),
   ("input_tokens", .int r.input_tokens),
   ("output_tokens", .int r.output_tokens),
   ("total_tokens", .int r.total_tokens),
   ("cost_usd", .num r.cost_usd),
   ("component", jOptStr r.component),
   ("session_id", jOptStr r.session_id)]

/-- `model_dump` of `GovernanceLogEntry`. -/
def GovernanceLogEntry.serialize (r : GovernanceLogEntry) : List (String × JValue) :=
  [("timestamp", .time r.timestamp),
   ("component", .str r.component),
   ("action", .str r.action),
   ("success", .bool r.success),
   ("details", jOptStr r.details)]

/-- The canonical well-typed construction map for `CostTrackingSchema`:
all required fields present with the right shapes. -/
def costMap (eid mdl : String) (i o t : ℤ) (c : ℚ) : List (String × JValue) :=
  [("event_id", .str eid), ("model", .str mdl), ("input_tokens", .int i),
   ("output_tokens", .int o), ("total_tokens", .int t), ("cost_usd", .num c)]

/-! ## Helper lemmas -/

/-- `Rat.floor` agrees with the `Int.floor` of the `FloorRing` instance. -/
theorem rat_floor_eq_floor (q : ℚ) : q.floor = ⌊q⌋ := by
  rw [Rat.floor_def, Rat.floor_def']

/-- `round6` is monotone. -/
theorem round6_mono {q r : ℚ} (h : q ≤ r) : round6 q ≤ round6 r := by
  unfold round6
  rw [rat_floor_eq_floor, rat_floor_eq_floor]
  have h2 : ⌊q * 1000000 + 1/2⌋ ≤ ⌊r * 1000000 + 1/2⌋ :=
    Int.floor_le_floor (by nlinarith)
  have h3 : ((⌊q * 1000000 + 1/2⌋ : ℤ) : ℚ) ≤ ((⌊r * 1000000 + 1/2⌋ : ℤ) : ℚ) :=
    Int.cast_le.mpr h2
  linarith

/-- Every rate in `MODEL_COSTS` is non-negative. -/
theorem MODEL_COSTS_nonneg {model : String} {c : ℚ × ℚ}
    (h : MODEL_COSTS model = some c) : 0 ≤ c.1 ∧ 0 ≤ c.2 := by
  unfold MODEL_COSTS at h
  split_ifs at h <;> simp only [Option.some.injEq] at h <;>
    (subst h; constructor <;> norm_num)

/-- Inversion for `Except.bind` succeeding. -/
theorem except_bind_ok {α β : Type} {x : Except String α}
    {f : α → Except String β} {b : β} (h : Except.bind x f = .ok b) :
    ∃ a, x = .ok a ∧ f a = .ok b := by
  cases x with
  | error e => simp [Except.bind] at h
  | ok a => exact ⟨a, rfl, by simpa [Except.bind] using h⟩

/-- A successful `readStr` means the key is present. -/
theorem readStr_ok_lookup {m : List (String × JValue)} {k : String}
    {s : String} (h : readStr m k = .ok s) : m.lookup k = some (.str s) := by
  unfold readStr at h
  split at h <;> simp_all

/-- A successful `readEventType` means the key is present. -/
theorem readEventType_ok_lookup {m : List (String × JValue)} {k : String}
    {t : AuditEventType} (h : readEventType m k = .ok t) :
    ∃ v, m.lookup k = some v := by
  unfold readEventType at h
  split at h <;> simp_all

/-- A successful `readIntGe` yields a non-negative integer. -/
theorem readIntGe_ok_nonneg {m : List (String × JValue)} {k : String}
    {i : ℤ} (h : readIntGe m k = .ok i) : 0 ≤ i := by
  unfold readIntGe at h
  split at h
  · split at h
    · exact absurd h (by simp)
    · rename_i hneg
      simp only [Except.ok.injEq] at h
      subst h
      exact le_of_not_lt hneg
  · exact absurd h (by simp)
  · exact absurd h (by simp)

/-- A successful `readNumGe` yields a non-negative rational. -/
theorem readNumGe_ok_nonneg {m : List (String × JValue)} {k : String}
    {q : ℚ} (h : readNumGe m k = .ok q) : 0 ≤ q := by
  unfold readNumGe at h
  split at h
  · split at h
    · exact absurd h (by simp)
    · rename_i hneg
      simp only [Except.ok.injEq] at h
      subst h
      exact le_of_not_lt hneg
  · split at h
    · exact absurd h (by simp)
    · rename_i hneg
      simp only [Except.ok.injEq] at h
      subst h
      exact le_of_not_lt hneg
  · exact absurd h (by simp)
  · exact absurd h (by simp)

/-- Parsing a tag printed from the enum gives back the member. -/
theorem ofTag_toTag (t : AuditEventType) : AuditEventType.ofTag t.toTag = some t := by
  cases t <;> rfl

/-- Text within the bound is returned unchanged (any `max_length`). -/
theorem truncate_id (text : List Char) (maxl : ℤ)
    (h : (text.length : ℤ) ≤ maxl) : truncate_text text maxl = text := by
  unfold truncate_text
  split_ifs with h1
  · exact h1.symm
  · rfl

/-- For `max_length ≤ 3` the result is the bare Python slice. -/
theorem truncate_small (text : List Char) (maxl : ℤ) (h : maxl ≤ 3) :
    truncate_text text maxl = pySlice text maxl := by
  unfold truncate_text
  split_ifs with h1 h2
  · subst h1
    simp [pySlice]
  · have hpos : 0 < text.length := List.length_pos.mpr h1
    have h0 : 0 ≤ maxl := by omega
    symm
    simp only [pySlice]
    rw [if_pos h0]
    exact List.take_of_length_le (by omega)
  · rfl

/-- Over-long text with `max_length > 3` is cut to `max_length - 3`
characters plus a three-period ellipsis. -/
theorem truncate_over (text : List Char) (maxl : ℤ) (h3 : 3 < maxl)
    (hover : maxl < (text.length : ℤ)) :
    truncate_text text maxl = text.take (maxl - 3).toNat ++ ['.', '.', '.'] := by
  unfold truncate_text
  split_ifs with h1 h2 hsmall
  · subst h1
    simp at hover
    omega
  · omega
  · omega
  · simp only [pySlice]
    rw [if_pos (by omega)]

/-- In the ellipsis branch the result length is exactly `max_length`. -/
theorem truncate_over_len (text : List Char) (maxl : ℤ) (h3 : 3 < maxl)
    (hover : maxl < (text.length : ℤ)) :
    ((truncate_text text maxl).length : ℤ) = maxl := by
  rw [truncate_over text maxl h3 hover]
  simp only [List.length_append, List.length_take, List.length_cons,
    List.length_nil]
  omega

/-- C1.  `truncate_text` law: for `max_length > 3` the result length is at
most `max_length`; text within the bound is unchanged; over-long text
becomes the first `max_length - 3` characters followed by exactly three
periods, with total length `max_length`.  For `max_length ≤ 3` the result
is the bare slice `text[:max_length]` with no ellipsis, and empty text
yields the empty string. -/
theorem truncate_text_spec (text : List Char) (max_length : ℤ) :
    (3 < max_length →
      ((truncate_text text max_length).length : ℤ) ≤ max_length ∧
      ((text.length : ℤ) ≤ max_length → truncate_text text max_length = text) ∧
      (max_length < (text.length : ℤ) →
        truncate_text text max_length
          = text.take (max_length - 3).toNat ++ ['.', '.', '.'] ∧
        ((truncate_text text max_length).length : ℤ) = max_length)) ∧
    (max_length ≤ 3 → truncate_text text max_length = pySlice text max_length) ∧
    (text = [] → truncate_text text max_length = []) := by
  refine ⟨fun h3 => ⟨?_, fun hle => truncate_id text max_length hle,
      fun hover => ⟨truncate_over text max_length h3 hover,
        truncate_over_len text max_length h3 hover⟩⟩,
    fun hsmall => truncate_small text max_length hsmall,
    fun he => by simp [truncate_text, he]⟩
  by_cases hlen : (text.length : ℤ) ≤ max_length
  · rw [truncate_id text max_length hlen]
    exact hlen
  · have := truncate_over_len text max_length h3 (by omega)
    omega

/-- Witness for C1 at the spec's own scenario `truncate_text("Hello World", 8)`. -/
theorem truncate_text_spec_witness :
    truncate_text ("Hello World".data) 8
      = ("Hello World".data.take ((8 - 3 : ℤ)).toNat ++ ['.', '.', '.']) ∧
    ((truncate_text ("Hello World".data) 8).length : ℤ) = 8 :=
  ((truncate_text_spec ("Hello World".data) 8).1 (by decide)).2.2 (by decide)

/-- C2.  `calculate_cost` law: absent models cost `0.0`; present models cost
`round(input/1000 * input_rate + output/1000 * output_rate, 6)`; in
particular the spec scenario `calculate_cost(1000, 500, "gpt-4o-mini")`
yields `0.00045`. -/
theorem calculate_cost_spec :
    (∀ (i o : ℤ) (model : String), MODEL_COSTS model = none →
        calculate_cost i o model = 0) ∧
    (∀ (i o : ℤ) (model : String) (c : ℚ × ℚ), MODEL_COSTS model = some c →
        calculate_cost i o model
          = round6 ((i : ℚ) / 1000 * c.1 + (o : ℚ) / 1000 * c.2)) ∧
    calculate_cost 1000 500 "gpt-4o-mini" = 0.00045 := by
  refine ⟨?_, ?_, ?_⟩
  · intro i o model h
    simp [calculate_cost, h]
  · intro i o model c h
    simp [calculate_cost, h]
  · have h : MODEL_COSTS "gpt-4o-mini" = some (0.00015, 0.0006) := rfl
    simp only [calculate_cost, h, round6, rat_floor_eq_floor]
    norm_num

/-- Witness for C2: an unknown model has zero cost. -/
theorem calculate_cost_spec_witness : calculate_cost 1000 1000 "unknown-model" = 0 :=
  calculate_cost_spec.1 1000 1000 "unknown-model" rfl

/-- C9.  Cost monotonicity: for non-negative token counts and any
non-negative increment of the input tokens, the cost of a model present in
the table never decreases. -/
theorem calculate_cost_monotone :
    ∀ (a b d : ℤ) (model : String), 0 ≤ a → 0 ≤ b → 0 ≤ d →
      (∃ c, MODEL_COSTS model = some c) →
      calculate_cost a b model ≤ calculate_cost (a + d) b model := by
  rintro a b d model ha hb hd ⟨c, hc⟩
  have hr := MODEL_COSTS_nonneg hc
  simp only [calculate_cost, hc]
  apply round6_mono
  have hdq : (0 : ℚ) ≤ (d : ℤ) := by exact_mod_cast hd
  have h1 : (a : ℚ) / 1000 * c.1 ≤ ((a + d : ℤ) : ℚ) / 1000 * c.1 := by
    apply mul_le_mul_of_nonneg_right _ hr.1
    push_cast
    linarith
  linarith

/-- Witness for C9 at `a = 1000`, `b = 500`, `Δ = 500`, model `gpt-4o-mini`. -/
theorem calculate_cost_monotone_witness :
    calculate_cost 1000 500 "gpt-4o-mini"
      ≤ calculate_cost (1000 + 500) 500 "gpt-4o-mini" :=
  calculate_cost_monotone 1000 500 500 "gpt-4o-mini" (by decide) (by decide)
    (by decide) ⟨(0.00015, 0.0006), rfl⟩

/-- C10.  `calculate_cost` validates nothing: a negative input-token count
with a model present in the table produces a strictly negative cost
(`calculate_cost(-1000, 0, "gpt-4o-mini") = -0.00015`), while
`CostTrackingSchema` rejects such a negative cost at construction. -/
theorem calculate_cost_no_validation :
    calculate_cost (-1000) 0 "gpt-4o-mini" = -0.00015 ∧
    calculate_cost (-1000) 0 "gpt-4o-mini" < 0 ∧
    (∃ e, CostTrackingSchema.construct 0
        [("event_id", JValue.str "EVT"), ("model", JValue.str "gpt-4o-mini"),
         ("input_tokens", JValue.int 0), ("output_tokens", JValue.int 0),
         ("total_tokens", JValue.int 0), ("cost_usd", JValue.num (-2))]
        = .error e) := by
  have h1 : calculate_cost (-1000) 0 "gpt-4o-mini" = -0.00015 := by
    have h : MODEL_COSTS "gpt-4o-mini" = some (0.00015, 0.0006) := rfl
    simp only [calculate_cost, h, round6, rat_floor_eq_floor]
    norm_num
  refine ⟨h1, by rw [h1]; norm_num, ⟨"cost_usd: out_of_range", rfl⟩⟩

/-- Evaluation of `CostTrackingSchema.construct` on a canonical map: the
four `ge` constraints decide the outcome. -/
theorem costMap_eval (now : ℤ) (eid mdl : String) (i o t : ℤ) (c : ℚ) :
    CostTrackingSchema.construct now (costMap eid mdl i o t c)
      = if i < 0 then .error "input_tokens: out_of_range"
        else if o < 0 then .error "output_tokens: out_of_range"
        else if t < 0 then .error "total_tokens: out_of_range"
        else if c < 0 then .error "cost_usd: out_of_range"
        else .ok ⟨eid, now, mdl, i, o, t, c, none, none⟩ := by
  simp only [CostTrackingSchema.construct, costMap, readStr, readTimeD,
    readIntGe, readNumGe, readOptStr, List.lookup]
  norm_num
  split_ifs with hi ho ht hc
  · simp [hi, Except.bind]
  · simp [hi, ho, Except.bind]
  · simp [hi, ho, ht, Except.bind]
  · simp [hi, ho, ht, hc, Except.bind]
  · simp [hi, ho, ht, hc, Except.bind]

/-- C3.  `CostTrackingSchema` non-negativity: construction fails when any of
`input_tokens`, `output_tokens`, `total_tokens`, `cost_usd` is negative and
succeeds otherwise on well-typed inputs; every constructed record has
non-negative token counts and cost; no constraint ties `total_tokens` to
`input_tokens + output_tokens`. -/
theorem CostTrackingSchema_nonneg :
    (∀ (now : ℤ) (m : List (String × JValue)) (r : CostTrackingSchema),
        CostTrackingSchema.construct now m = .ok r →
        0 ≤ r.input_tokens ∧ 0 ≤ r.output_tokens ∧ 0 ≤ r.total_tokens ∧
        0 ≤ r.cost_usd) ∧
    (∀ (now : ℤ) (eid mdl : String) (i o t : ℤ) (c : ℚ),
        i < 0 ∨ o < 0 ∨ t < 0 ∨ c < 0 →
        ∃ e, CostTrackingSchema.construct now (costMap eid mdl i o t c)
          = .error e) ∧
    (∀ (now : ℤ) (eid mdl : String) (i o t : ℤ) (c : ℚ),
        0 ≤ i → 0 ≤ o → 0 ≤ t → 0 ≤ c →
        CostTrackingSchema.construct now (costMap eid mdl i o t c)
          = .ok ⟨eid, now, mdl, i, o, t, c, none, none⟩) ∧
    (∃ r, CostTrackingSchema.construct 0 (costMap "EVT" "gpt-4o-mini" 1 2 100 0)
        = .ok r ∧ r.total_tokens ≠ r.input_tokens + r.output_tokens) := by
  refine ⟨?_, ?_, ?_, ?_⟩
  · intro now m r h
    unfold CostTrackingSchema.construct at h
    obtain ⟨eid, h1, h⟩ := except_bind_ok h
    obtain ⟨ts, h2, h⟩ := except_bind_ok h
    obtain ⟨mdl, h3, h⟩ := except_bind_ok h
    obtain ⟨i, h4, h⟩ := except_bind_ok h
    obtain ⟨o, h5, h⟩ := except_bind_ok h
    obtain ⟨t, h6, h⟩ := except_bind_ok h
    obtain ⟨c, h7, h⟩ := except_bind_ok h
    obtain ⟨comp, h8, h⟩ := except_bind_ok h
    obtain ⟨sid, h9, h⟩ := except_bind_ok h
    have hr : r = ⟨eid, ts, mdl, i, o, t, c, comp, sid⟩ := by
      injection h with h
      exact h.symm
    subst hr
    exact ⟨readIntGe_ok_nonneg h4, readIntGe_ok_nonneg h5,
      readIntGe_ok_nonneg h6, readNumGe_ok_nonneg h7⟩
  · intro now eid mdl i o t c hneg
    rw [costMap_eval]
    split_ifs with hi ho ht hc
    · exact ⟨_, rfl⟩
    · exact ⟨_, rfl⟩
    · exact ⟨_, rfl⟩
    · exact ⟨_, rfl⟩
    · rcases hneg with h | h | h | h
      · exact absurd h hi
      · exact absurd h ho
      · exact absurd h ht
      · exact absurd h hc
  · intro now eid mdl i o t c hi ho ht hc
    rw [costMap_eval, if_neg (not_lt.mpr hi), if_neg (not_lt.mpr ho),
      if_neg (not_lt.mpr ht), if_neg (not_lt.mpr hc)]
  · refine ⟨⟨"EVT", 0, "gpt-4o-mini", 1, 2, 100, 0, none, none⟩, ?_, by decide⟩
    rw [costMap_eval]
    norm_num

/-- Witness for C3: a negative `input_tokens` is rejected; a well-typed
non-negative construction succeeds (with `total_tokens` free). -/
theorem CostTrackingSchema_nonneg_witness :
    (∃ e, CostTrackingSchema.construct 0
        (costMap "EVT_BAD" "gpt-4o-mini" (-100) 500 400 0) = .error e) ∧
    CostTrackingSchema.construct 0 (costMap "EVT" "gpt-4o-mini" 1000 500 1500 0)
      = .ok ⟨"EVT", 0, "gpt-4o-mini", 1000, 500, 1500, 0, none, none⟩ :=
  ⟨CostTrackingSchema_nonneg.2.1 0 "EVT_BAD" "gpt-4o-mini" (-100) 500 400 0
      (Or.inl (by decide)),
   CostTrackingSchema_nonneg.2.2.1 0 "EVT" "gpt-4o-mini" 1000 500 1500 0
      (by decide) (by decide) (by decide) (le_refl 0)⟩

/-- C8.  `add_governance_log` frame/effect: it always succeeds, the returned
entry carries exactly the given `component`, `action`, `success`, `details`
(and the current time), the new sequence is the old one (created empty when
the slot was absent) with the entry appended at the end — so every
previously stored entry is unchanged and the length grows by one. -/
theorem add_governance_log_spec :
    ∀ (st : Option (List GovernanceLogEntry)) (component action : String)
      (success : Bool) (details : Option String) (now : ℤ),
      (add_governance_log st component action success details now).1.component
          = component ∧
      (add_governance_log st component action success details now).1.action
          = action ∧
      (add_governance_log st component action success details now).1.success
          = success ∧
      (add_governance_log st component action success details now).1.details
          = details ∧
      (add_governance_log st component action success details now).1.timestamp
          = now ∧
      (add_governance_log st component action success details now).2
          = init_governance_state st
            ++ [(add_governance_log st component action success details now).1] ∧
      (add_governance_log st component action success details now).2.length
          = (init_governance_state st).length + 1 ∧
      ((add_governance_log st component action success details now).2).take
          (init_governance_state st).length = init_governance_state st ∧
      init_governance_state none = ([] : List GovernanceLogEntry) := by
  intro st component action success details now
  refine ⟨rfl, rfl, rfl, rfl, rfl, rfl, by simp [add_governance_log], ?_, rfl⟩
  simp only [add_governance_log]
  exact List.take_left _ _

/-- C7.  Newest-first display: rendering iterates the log in reverse, so
after each append the new entry is shown first, and appending A, B, C to a
fresh session shows `[C, B, A]`. -/
theorem snapshot_newest_first :
    (∀ (logs : List GovernanceLogEntry) (component action : String)
        (success : Bool) (details : Option String) (now : ℤ),
      snapshot (add_governance_log (some logs) component action success details now).2
        = (add_governance_log (some logs) component action success details now).1
            :: snapshot logs) ∧
    (∀ (ca aa : String) (sa : Bool) (da : Option String) (na : ℤ)
        (cb ab : String) (sb : Bool) (db : Option String) (nb : ℤ)
        (cc ac : String) (sc : Bool) (dc : Option String) (nc : ℤ),
      snapshot (add_governance_log
          (some (add_governance_log
            (some (add_governance_log none ca aa sa da na).2)
            cb ab sb db nb).2)
          cc ac sc dc nc).2
        = [(add_governance_log
              (some (add_governance_log
                (some (add_governance_log none ca aa sa da na).2)
                cb ab sb db nb).2)
              cc ac sc dc nc).1,
           (add_governance_log
              (some (add_governance_log none ca aa sa da na).2)
              cb ab sb db nb).1,
           (add_governance_log none ca aa sa da na).1]) := by
  constructor
  · intro logs component action success details now
    simp [snapshot, add_governance_log, init_governance_state]
  · intro ca aa sa da na cb ab sb db nb cc ac sc dc nc
    simp [snapshot, add_governance_log, init_governance_state]

/-- A successful `AuditEventSchema` construction implies all four required
fields were present in the map. -/
theorem audit_construct_ok_required {now : ℤ} {m : List (String × JValue)}
    {r : AuditEventSchema} (h : AuditEventSchema.construct now m = .ok r) :
    (∃ v, m.lookup "event_id" = some v) ∧
    (∃ v, m.lookup "event_type" = some v) ∧
    (∃ v, m.lookup "component" = some v) ∧
    (∃ v, m.lookup "action" = some v) := by
  unfold AuditEventSchema.construct at h
  obtain ⟨eid, h1, h⟩ := except_bind_ok h
  obtain ⟨ty, h2, h⟩ := except_bind_ok h
  obtain ⟨ts, h3, h⟩ := except_bind_ok h
  obtain ⟨comp, h4, h⟩ := except_bind_ok h
  obtain ⟨act, h5, h⟩ := except_bind_ok h
  exact ⟨⟨_, readStr_ok_lookup h1⟩, readEventType_ok_lookup h2,
    ⟨_, readStr_ok_lookup h4⟩, ⟨_, readStr_ok_lookup h5⟩⟩

/-- C6.  Required fields of `AuditEventSchema`: construction fails whenever
`event_id`, `event_type`, `component` or `action` is absent from the input
map, and succeeds when all four are present with the right types. -/
theorem AuditEventSchema_required_fields :
    (∀ (now : ℤ) (m : List (String × JValue)),
        (m.lookup "event_id" = none ∨ m.lookup "event_type" = none ∨
         m.lookup "component" = none ∨ m.lookup "action" = none) →
        ∃ e, AuditEventSchema.construct now m = .error e) ∧
    (∀ (now : ℤ) (eid tag comp act : String) (t : AuditEventType),
        AuditEventType.ofTag tag = some t →
        AuditEventSchema.construct now
          [("event_id", .str eid), ("event_type", .str tag),
           ("component", .str comp), ("action", .str act)]
          = .ok ⟨eid, t, now, comp, act, none, none, true, none, none⟩) := by
  constructor
  · intro now m hmiss
    cases hok : AuditEventSchema.construct now m with
    | error e => exact ⟨e, rfl⟩
    | ok r =>
      exfalso
      have hreq := audit_construct_ok_required hok
      rcases hmiss with h | h | h | h
      · obtain ⟨v, hv⟩ := hreq.1
        rw [h] at hv
        exact Option.noConfusion hv
      · obtain ⟨v, hv⟩ := hreq.2.1
        rw [h] at hv
        exact Option.noConfusion hv
      · obtain ⟨v, hv⟩ := hreq.2.2.1
        rw [h] at hv
        exact Option.noConfusion hv
      · obtain ⟨v, hv⟩ := hreq.2.2.2
        rw [h] at hv
        exact Option.noConfusion hv
  · intro now eid tag comp act t ht
    simp [AuditEventSchema.construct, readStr, readEventType, readTimeD,
      readOptStr, readBoolD, readOptObj, List.lookup, ht, Except.bind]

/-- Witness for C6: the spec scenario — constructing without `component`
fails; the test-suite's valid event constructs. -/
theorem AuditEventSchema_required_fields_witness :
    (∃ e, AuditEventSchema.construct 0
        [("event_id", JValue.str "EVT_123"),
         ("event_type", JValue.str "user_query"),
         ("action", JValue.str "User submitted query")] = .error e) ∧
    AuditEventSchema.construct 0
        [("event_id", JValue.str "EVT_123"),
         ("event_type", JValue.str "user_query"),
         ("component", JValue.str "ChatUI"),
         ("action", JValue.str "User submitted query")]
      = .ok ⟨"EVT_123", .user_query, 0, "ChatUI", "User submitted query",
             none, none, true, none, none⟩ :=
  ⟨AuditEventSchema_required_fields.1 0
      [("event_id", JValue.str "EVT_123"),
       ("event_type", JValue.str "user_query"),
       ("action", JValue.str "User submitted query")]
      (Or.inr (Or.inr (Or.inl rfl))),
   AuditEventSchema_required_fields.2 0 "EVT_123" "user_query" "ChatUI"
      "User submitted query" .user_query rfl⟩

/-- Counterexample to C5: empty strings for `event_id`, `component` and
`action` are accepted — plain `str` fields carry no `min_length` constraint,
so this construction succeeds instead of failing as the claim states. -/
theorem AuditEventSchema_empty_accepted_counterexample :
    AuditEventSchema.construct 0
        [("event_id", JValue.str ""), ("event_type", JValue.str "user_query"),
         ("component", JValue.str ""), ("action", JValue.str "")]
      = .ok ⟨"", .user_query, 0, "", "", none, none, true, none, none⟩ := rfl

/-- C5 amended.  `event_id`, `component`, `action` are required to be
present, but their emptiness is never validated: construction succeeds for
arbitrary strings, the empty string included, and stores them unchanged. -/
theorem AuditEventSchema_empty_strings_accepted :
    ∀ (now : ℤ) (eid comp act : String),
      AuditEventSchema.construct now
          [("event_id", .str eid), ("event_type", .str "user_query"),
           ("component", .str comp), ("action", .str act)]
        = .ok ⟨eid, .user_query, now, comp, act, none, none, true, none, none⟩ := by
  intro now eid comp act
  simp [AuditEventSchema.construct, readStr, readEventType, readTimeD,
    readOptStr, readBoolD, readOptObj, List.lookup, Except.bind,
    AuditEventType.ofTag]

/-- Any successfully constructed `CostTrackingSchema` has non-negative
token counts and cost (inversion of the `ge` checks). -/
theorem cost_construct_ok_nonneg {now : ℤ} {m : List (String × JValue)}
    {r : CostTrackingSchema} (h : CostTrackingSchema.construct now m = .ok r) :
    0 ≤ r.input_tokens ∧ 0 ≤ r.output_tokens ∧ 0 ≤ r.total_tokens ∧
    0 ≤ r.cost_usd := by
  unfold CostTrackingSchema.construct at h
  obtain ⟨eid, h1, h⟩ := except_bind_ok h
  obtain ⟨ts, h2, h⟩ := except_bind_ok h
  obtain ⟨mdl, h3, h⟩ := except_bind_ok h
  obtain ⟨i, h4, h⟩ := except_bind_ok h
  obtain ⟨o, h5, h⟩ := except_bind_ok h
  obtain ⟨t, h6, h⟩ := except_bind_ok h
  obtain ⟨c, h7, h⟩ := except_bind_ok h
  obtain ⟨comp, h8, h⟩ := except_bind_ok h
  obtain ⟨sid, h9, h⟩ := except_bind_ok h
  have hr : r = ⟨eid, ts, mdl, i, o, t, c, comp, sid⟩ := by
    injection h with h
    exact h.symm
  subst hr
  exact ⟨readIntGe_ok_nonneg h4, readIntGe_ok_nonneg h5,
    readIntGe_ok_nonneg h6, readNumGe_ok_nonneg h7⟩

/-- Reconstructing an `AuditEventSchema` from its own `model_dump` gives
back the record, whatever the current time. -/
theorem audit_roundtrip (now : ℤ) (r : AuditEventSchema) :
    AuditEventSchema.construct now r.serialize = .ok r := by
  obtain ⟨eid, ty, ts, comp, act, uid, sid, succ, det, meta⟩ := r
  cases uid <;> cases sid <;> cases det <;> cases meta <;>
    simp [AuditEventSchema.construct, AuditEventSchema.serialize, readStr,
      readEventType, readTimeD, readOptStr, readBoolD, readOptObj,
      List.lookup, Except.bind, ofTag_toTag, jOptStr, jOptObj]

/-- Reconstructing a `GovernanceLogEntry` from its own `model_dump` gives
back the record. -/
theorem governance_roundtrip (now : ℤ) (r : GovernanceLogEntry) :
    GovernanceLogEntry.construct now r.serialize = .ok r := by
  obtain ⟨ts, comp, act, succ, det⟩ := r
  cases det <;>
    simp [GovernanceLogEntry.construct, GovernanceLogEntry.serialize,
      readStr, readTimeD, readBoolD, readOptStr, List.lookup, Except.bind,
      jOptStr]

/-- Reconstructing a `CostTrackingSchema` from its own `model_dump` gives
back the record, provided its numeric fields satisfy the `ge` constraints
(which every constructed record does). -/
theorem cost_roundtrip (now : ℤ) (r : CostTrackingSchema)
    (hi : 0 ≤ r.input_tokens) (ho : 0 ≤ r.output_tokens)
    (ht : 0 ≤ r.total_tokens) (hc : 0 ≤ r.cost_usd) :
    CostTrackingSchema.construct now r.serialize = .ok r := by
  obtain ⟨eid, ts, mdl, i, o, t, c, comp, sid⟩ := r
  simp only at hi ho ht hc
  cases comp <;> cases sid <;>
    simp [CostTrackingSchema.construct, CostTrackingSchema.serialize,
      readStr, readTimeD, readIntGe, readNumGe, readOptStr, List.lookup,
      Except.bind, jOptStr, not_lt.mpr hi, not_lt.mpr ho, not_lt.mpr ht,
      not_lt.mpr hc]

/-- C4.  Serialization round-trip: for every map that constructs
successfully, dumping the constructed record to a plain field map and
constructing again yields the same record field-by-field, for all three
schema types; the `event_type` enum field serializes to its string tag. -/
theorem schema_roundtrip :
    (∀ (now now2 : ℤ) (m : List (String × JValue)) (r : AuditEventSchema),
        AuditEventSchema.construct now m = .ok r →
        AuditEventSchema.construct now2 r.serialize = .ok r) ∧
    (∀ (now now2 : ℤ) (m : List (String × JValue)) (r : CostTrackingSchema),
        CostTrackingSchema.construct now m = .ok r →
        CostTrackingSchema.construct now2 r.serialize = .ok r) ∧
    (∀ (now now2 : ℤ) (m : List (String × JValue)) (r : GovernanceLogEntry),
        GovernanceLogEntry.construct now m = .ok r →
        GovernanceLogEntry.construct now2 r.serialize = .ok r) ∧
    (∀ r : AuditEventSchema,
        r.serialize.lookup "event_type" = some (.str r.event_type.toTag)) :=
  ⟨fun _ now2 _ r _ => audit_roundtrip now2 r,
   fun _ now2 _ r h => by
      obtain ⟨hi, ho, ht, hc⟩ := cost_construct_ok_nonneg h
      exact cost_roundtrip now2 r hi ho ht hc,
   fun _ now2 _ r _ => governance_roundtrip now2 r,
   fun _ => rfl⟩

/-- Witness for C4: round-trip of a concretely constructed audit event. -/
theorem schema_roundtrip_witness :
    AuditEventSchema.construct 7
        (AuditEventSchema.serialize
          ⟨"EVT_1", .user_query, 5, "ChatUI", "query", none, none, true,
           none, none⟩)
      = .ok ⟨"EVT_1", .user_query, 5, "ChatUI", "query", none, none, true,
             none, none⟩ :=
  schema_roundtrip.1 5 7
    [("event_id", JValue.str "EVT_1"), ("event_type", JValue.str "user_query"),
     ("component", JValue.str "ChatUI"), ("action", JValue.str "query")]
    ⟨"EVT_1", .user_query, 5, "ChatUI", "query", none, none, true, none, none⟩
    rfl
